import Mathlib

/-!
Verification of the dual-mode generic thermostat controller
(`custom_components/dualmode_generic/climate.py`).

This file gives a shallow embedding of the controller:

* `ControllerState` holds the mutable fields of `GenericThermostat`
  (`_hvac_mode`, `_active`, `_cur_temp`, `_target_temp_low`,
  `_target_temp_high`, `_is_away`).
* `Config` holds the immutable configuration resolved at construction.
* `Env` holds what the evaluation observes from the outside world:
  the heater/cooler switch states (`hass.states.is_state(..., "on")`)
  and the two `condition.state` queries used by the debounce gate.
* `control_heating` embeds `_async_control_heating`; the handlers
  `async_set_hvac_mode`, `async_set_temperature`, `async_sensor_changed`
  and the restore logic of `async_added_to_hass` are embedded on top.

Temperatures (Python floats) are modelled as rationals.  Python `None` is
`Option.none`.  Python arithmetic on `None` raises `TypeError`; this is
made explicit: `pySub` returns an `Except`, and an evaluation that raises
reports `Outcome.typeError` (the state mutations already performed are
kept, as in Python, and the statements after the raise do not run).
-/

namespace DualMode

/-- `HVAC_MODE_OFF` from homeassistant's climate constants. -/
def HVAC_MODE_OFF : String := "off"

/-- `HVAC_MODE_HEAT` from homeassistant's climate constants. -/
def HVAC_MODE_HEAT : String := "heat"

/-- `HVAC_MODE_COOL` from homeassistant's climate constants. -/
def HVAC_MODE_COOL : String := "cool"

/-- `HVAC_MODE_HEAT_COOL` from homeassistant's climate constants. -/
def HVAC_MODE_HEAT_COOL : String := "heat_cool"

/-- `STATE_ON` from homeassistant's constants. -/
def STATE_ON : String := "on"

/-- `PRESET_AWAY` from homeassistant's climate constants. -/
def PRESET_AWAY : String := "away"

/-- The actuator commands the controller can issue, mirroring the four
service-call helpers `_async_heater_turn_on`, `_async_heater_turn_off`,
`_async_cooler_turn_on`, `_async_cooler_turn_off`. -/
inductive Command where
  | heater_turn_on
  | heater_turn_off
  | cooler_turn_on
  | cooler_turn_off
deriving DecidableEq

/-- Where an evaluation of `_async_control_heating` returned:
at the activation gate (`if not self._active: return`), at the mode gate
(`if self._hvac_mode == HVAC_MODE_OFF: return`), at the debounce gate
(`if not (long_enough_cool or long_enough_heat): return`), or after
running the turn-on / turn-off passes to the end of the method. -/
inductive ReturnPoint where
  | activationGate
  | modeGate
  | debounceGate
  | completed
deriving DecidableEq

/-- Outcome of one evaluation: a normal return at the given point, or an
unhandled `TypeError` raised by subtraction involving `None`. -/
inductive Outcome where
  | returned (rp : ReturnPoint)
  | typeError
deriving DecidableEq

/-- The mutable state of a `GenericThermostat` instance. `_hvac_mode`
holds a raw mode string (or Python `None`), exactly as the source keeps
it. -/
structure ControllerState where
  hvac_mode : Option String
  active : Bool
  cur_temp : Option ℚ
  target_temp_low : Option ℚ
  target_temp_high : Option ℚ
  is_away : Bool
deriving DecidableEq

/-- Immutable configuration of the thermostat.  `conf_min_temp` and
`conf_max_temp` are the raw `min_temp` / `max_temp` configuration
entries (possibly absent); `super_min_temp` / `super_max_temp` are the
defaults inherited from the `ClimateDevice` base class, resolved by the
`min_temp` / `max_temp` properties below. -/
structure Config where
  reverse_cycle : Bool
  min_cycle_duration : Option Nat
  cold_tolerance : ℚ
  hot_tolerance : ℚ
  conf_min_temp : Option ℚ
  conf_max_temp : Option ℚ
  super_min_temp : ℚ
  super_max_temp : ℚ
deriving DecidableEq

/-- What one evaluation observes from the home-assistant state machine:
the two switch states, and the result of the two `condition.state`
queries (`condition.state(hass, entity, current_state,
min_cycle_duration)`), as a function of the reference state string
passed in. -/
structure Env where
  heater_on : Bool
  cooler_on : Bool
  heater_held : String → Bool
  cooler_held : String → Bool

/-- The `_is_device_active` property:
`hass.states.is_state(heater, "on") or hass.states.is_state(cooler, "on")`. -/
def is_device_active (env : Env) : Bool :=
  env.heater_on || env.cooler_on

/-- Python truthiness of an optional duration (`if self.min_cycle_duration:`):
`None` and a zero timedelta are falsy. -/
def timedeltaTruthy : Option Nat → Bool
  | none => false
  | some d => d != 0

/-- Python truthiness of an optional string (`if not self._hvac_mode`,
`old_state.state`): `None` and the empty string are falsy. -/
def strOptTruthy : Option String → Bool
  | none => false
  | some s => s != ""

/-- Python truthiness of an optional float (`if self._min_temp:`):
`None` and `0.0` are falsy. -/
def floatOptTruthy : Option ℚ → Bool
  | none => false
  | some x => x != 0

/-- The `min_temp` property: the configured value if truthy, else the
base-class default. -/
def min_temp (cfg : Config) : ℚ :=
  match cfg.conf_min_temp with
  | some m => if m ≠ 0 then m else cfg.super_min_temp
  | none => cfg.super_min_temp

/-- The `max_temp` property: the configured value if truthy, else the
base-class default. -/
def max_temp (cfg : Config) : ℚ :=
  match cfg.conf_max_temp with
  | some m => if m ≠ 0 then m else cfg.super_max_temp
  | none => cfg.super_max_temp

/-- Python subtraction on optional floats: `a - b` with either operand
`None` raises `TypeError`. -/
def pySub : Option ℚ → Option ℚ → Except String ℚ
  | some a, some b => .ok (a - b)
  | _, _ => .error "TypeError: unsupported operand type for -: NoneType"

/-- The four hysteresis predicates computed by `_async_control_heating`. -/
structure Thresholds where
  too_cold : Bool
  too_hot : Bool
  cool_enough : Bool
  warm_enough : Bool
deriving DecidableEq

/-- Lines 464-467 of `climate.py`, in source order:
`too_cold = self._target_temp_low - self._cur_temp >= self._cold_tolerance`,
`too_hot = self._cur_temp - self._target_temp_high >= self._hot_tolerance`,
`cool_enough = self._target_temp_high - self._cur_temp >= self._hot_tolerance`,
`warm_enough = self._cur_temp - self._target_temp_low >= self._cold_tolerance`. -/
def compute_thresholds (cold_tolerance hot_tolerance : ℚ)
    (low high t : Option ℚ) : Except String Thresholds :=
  match pySub low t with
  | .error e => .error e
  | .ok d1 =>
    match pySub t high with
    | .error e => .error e
    | .ok d2 =>
      match pySub high t with
      | .error e => .error e
      | .ok d3 =>
        match pySub t low with
        | .error e => .error e
        | .ok d4 =>
          .ok ⟨decide (d1 ≥ cold_tolerance), decide (d2 ≥ hot_tolerance),
               decide (d3 ≥ hot_tolerance), decide (d4 ≥ cold_tolerance)⟩

/-- The activation step at the top of `_async_control_heating`:
`if not self._active and None not in (self._cur_temp,
self._target_temp_high, self._target_temp_low): self._active = True`. -/
def activation_step (s : ControllerState) : ControllerState :=
  if s.active = false ∧ s.cur_temp ≠ none ∧
      s.target_temp_high ≠ none ∧ s.target_temp_low ≠ none then
    { s with active := true }
  else s

/-- The reference state used by the debounce gate:
`current_state = STATE_ON if self._is_device_active else HVAC_MODE_OFF`. -/
def reference_state (env : Env) : String :=
  if is_device_active env = true then STATE_ON else HVAC_MODE_OFF

/-- Whether the debounce gate lets the evaluation proceed.  The gate
blocks only when `force` is false, `min_cycle_duration` is truthy, and
neither `condition.state` query on the cooler nor on the heater (both
against the same `current_state`) reports the state held long enough. -/
def debounce_passed (cfg : Config) (env : Env) (force : Bool) : Bool :=
  if force = true then true
  else if timedeltaTruthy cfg.min_cycle_duration = true then
    env.cooler_held (reference_state env) || env.heater_held (reference_state env)
  else true

/-- The turn-off pass (device currently active): two independent `if`s,
cooler first:
`if cool_enough and self._hvac_mode in [HVAC_MODE_COOL, HVAC_MODE_HEAT_COOL]`,
`if warm_enough and self._hvac_mode in [HVAC_MODE_HEAT, HVAC_MODE_HEAT_COOL]`. -/
def turn_off_commands (mode : Option String) (th : Thresholds) : List Command :=
  (if th.cool_enough = true ∧
      (mode = some HVAC_MODE_COOL ∨ mode = some HVAC_MODE_HEAT_COOL) then
    [Command.cooler_turn_off]
  else []) ++
  (if th.warm_enough = true ∧
      (mode = some HVAC_MODE_HEAT ∨ mode = some HVAC_MODE_HEAT_COOL) then
    [Command.heater_turn_off]
  else [])

/-- The turn-on pass (device currently inactive): an `if` / `elif` pair,
cooler first:
`if too_hot and (mode == HVAC_MODE_COOL or mode == HVAC_MODE_HEAT_COOL)`,
`elif too_cold and (mode == HVAC_MODE_HEAT or mode == HVAC_MODE_HEAT_COOL)`. -/
def turn_on_commands (mode : Option String) (th : Thresholds) : List Command :=
  if th.too_hot = true ∧
      (mode = some HVAC_MODE_COOL ∨ mode = some HVAC_MODE_HEAT_COOL) then
    [Command.cooler_turn_on]
  else if th.too_cold = true ∧
      (mode = some HVAC_MODE_HEAT ∨ mode = some HVAC_MODE_HEAT_COOL) then
    [Command.heater_turn_on]
  else []

/-- Result of one run of `_async_control_heating`: the state after the
run, the actuator commands issued in order, and how the run ended. -/
structure EvalResult where
  state : ControllerState
  commands : List Command
  outcome : Outcome
deriving DecidableEq

/-- The threshold computation and the two passes, i.e. everything in
`_async_control_heating` after the three gates.  A `TypeError` from the
subtractions propagates before any command is issued. -/
def run_passes (cfg : Config) (env : Env) (s1 : ControllerState) : EvalResult :=
  match compute_thresholds cfg.cold_tolerance cfg.hot_tolerance
      s1.target_temp_low s1.target_temp_high s1.cur_temp with
  | .error _ => ⟨s1, [], .typeError⟩
  | .ok th =>
    ⟨s1,
     if is_device_active env = true then turn_off_commands s1.hvac_mode th
     else turn_on_commands s1.hvac_mode th,
     .returned .completed⟩

/-- `_async_control_heating(force)`: activation step, activation gate,
mode gate, debounce gate, then the passes. -/
def control_heating (cfg : Config) (env : Env) (s : ControllerState)
    (force : Bool) : EvalResult :=
  if (activation_step s).active = false then
    ⟨activation_step s, [], .returned .activationGate⟩
  else if (activation_step s).hvac_mode = some HVAC_MODE_OFF then
    ⟨activation_step s, [], .returned .modeGate⟩
  else if debounce_passed cfg env force = false then
    ⟨activation_step s, [], .returned .debounceGate⟩
  else run_passes cfg env (activation_step s)

/-- Result of one handler call: the state afterwards, the commands
issued, whether `_async_control_heating` ran, whether the
state-changed notification (`schedule_update_ha_state` /
`async_update_ha_state`) was reached, and whether an exception
propagated out of the handler. -/
structure HandlerResult where
  state : ControllerState
  commands : List Command
  evaluated : Bool
  notified : Bool
  raised : Bool
deriving DecidableEq

/-- Wrap an evaluation that runs inside a handler followed by a
notification: if the evaluation raised, the notification statement is
never reached and the exception propagates. -/
def after_eval (pre : List Command) (r : EvalResult) : HandlerResult :=
  match r.outcome with
  | .typeError => ⟨r.state, pre ++ r.commands, true, false, true⟩
  | .returned _ => ⟨r.state, pre ++ r.commands, true, true, false⟩

/-- `async_set_hvac_mode(hvac_mode)`: the four recognized branches of the
mode state machine; an unrecognized mode is logged and rejected with no
state change and no notification. -/
def async_set_hvac_mode (cfg : Config) (env : Env) (s : ControllerState)
    (hvac_mode : String) : HandlerResult :=
  if hvac_mode = HVAC_MODE_HEAT then
    let s1 := { s with hvac_mode := some HVAC_MODE_HEAT }
    let pre := if is_device_active env = true ∧ cfg.reverse_cycle = false then
        [Command.cooler_turn_off]
      else []
    after_eval pre (control_heating cfg env s1 true)
  else if hvac_mode = HVAC_MODE_COOL then
    let s1 := { s with hvac_mode := some HVAC_MODE_COOL }
    let pre := if is_device_active env = true ∧ cfg.reverse_cycle = false then
        [Command.heater_turn_off]
      else []
    after_eval pre (control_heating cfg env s1 true)
  else if hvac_mode = HVAC_MODE_HEAT_COOL then
    let s1 := { s with hvac_mode := some HVAC_MODE_HEAT_COOL }
    after_eval [] (control_heating cfg env s1 true)
  else if hvac_mode = HVAC_MODE_OFF then
    let s1 := { s with hvac_mode := some HVAC_MODE_OFF }
    let cmds := if is_device_active env = true then
        [Command.heater_turn_off, Command.cooler_turn_off]
      else []
    ⟨s1, cmds, false, true, false⟩
  else ⟨s, [], false, false, false⟩

/-- `async_set_temperature(**kwargs)`: both setpoints are overwritten
with `kwargs.get(...)` (absent keys give `None`, no validation), then a
forced evaluation runs, then the notification. -/
def async_set_temperature (cfg : Config) (env : Env) (s : ControllerState)
    (kw_low kw_high : Option ℚ) : HandlerResult :=
  let s1 := { s with target_temp_low := kw_low, target_temp_high := kw_high }
  after_eval [] (control_heating cfg env s1 true)

/-- A Python value as it flows into `_async_sensor_changed`'s `new_state`
parameter: `None`, a plain string, or a homeassistant `State` object
carrying its `.state` string.  The framework only ever passes `None` or
a `State` object. -/
inductive PyVal where
  | pyNone
  | pyStr (s : String)
  | pyState (state : String)
deriving DecidableEq

/-- Python `==` on such values.  Values of different types never compare
equal: homeassistant's `State.__eq__` recognizes only other `State`
instances, so comparing a `State` against a `str` (or either against
`None`) yields `False`. -/
def pyEq : PyVal → PyVal → Bool
  | .pyNone, .pyNone => true
  | .pyStr a, .pyStr b => a == b
  | .pyState a, .pyState b => a == b
  | _, _ => false

/-- `_async_update_temp(state)`: `self._cur_temp = float(state.state)`,
with a `ValueError` from `float` caught and logged, leaving `_cur_temp`
unchanged.  `parse` is Python's `float` conversion on the reading string
(`none` models a `ValueError`). -/
def update_temp (parse : String → Option ℚ) (s : ControllerState)
    (reading : String) : ControllerState :=
  match parse reading with
  | some t => { s with cur_temp := some t }
  | none => s

/-- `_async_sensor_changed(entity_id, old_state, new_state)`:
`if new_state is None: return`, `if new_state == "unavailable": return`,
then `_async_update_temp(new_state)`, a non-forced evaluation, and the
notification.  (The second guard compares the `State` object itself, not
its `.state` attribute, against the string.)  A `new_state` that is a
plain string would fail the attribute access in `_async_update_temp`;
the framework never produces one. -/
def async_sensor_changed (parse : String → Option ℚ) (cfg : Config)
    (env : Env) (s : ControllerState) (new_state : PyVal) : HandlerResult :=
  if pyEq new_state .pyNone = true then ⟨s, [], false, false, false⟩
  else if pyEq new_state (.pyStr "unavailable") = true then
    ⟨s, [], false, false, false⟩
  else
    match new_state with
    | .pyState st =>
      after_eval [] (control_heating cfg env (update_temp parse s st) false)
    | _ => ⟨s, [], false, false, true⟩

/-- The persisted state read back by `async_get_last_state()`: the two
target-temperature attributes, the preset-mode attribute, and the
persisted state string (the saved hvac mode). -/
structure PersistedState where
  target_low : Option ℚ
  target_high : Option ℚ
  preset : Option String
  state : Option String
deriving DecidableEq

/-- The restore / defaulting logic of `async_added_to_hass` (lines
216-262 of `climate.py`).  With a previous state: a missing
`target_temp_low` attribute falls back to `max_temp` when the current
mode is COOL and to `min_temp` otherwise; a missing `target_temp_high`
attribute falls back to `max_temp` when the current mode is COOL and to
`min_temp` otherwise; the away preset sets `_is_away`; a falsy
`_hvac_mode` is replaced by a truthy persisted state string.  With no
previous state: missing setpoints default to `max_temp` / `min_temp`
and a falsy mode defaults to OFF. -/
def async_added_to_hass (cfg : Config) (s : ControllerState)
    (old_state : Option PersistedState) : ControllerState :=
  match old_state with
  | some o =>
    let low : Option ℚ :=
      match o.target_low with
      | none =>
        some (if s.hvac_mode = some HVAC_MODE_COOL then max_temp cfg
              else min_temp cfg)
      | some v => some v
    let high : Option ℚ :=
      match o.target_high with
      | none =>
        some (if s.hvac_mode = some HVAC_MODE_COOL then max_temp cfg
              else min_temp cfg)
      | some v => some v
    let away : Bool := if o.preset = some PRESET_AWAY then true else s.is_away
    let mode : Option String :=
      if strOptTruthy s.hvac_mode = false ∧ strOptTruthy o.state = true then
        o.state
      else s.hvac_mode
    { s with target_temp_low := low, target_temp_high := high,
             is_away := away, hvac_mode := mode }
  | none =>
    let high : Option ℚ :=
      if s.target_temp_high = none then some (max_temp cfg)
      else s.target_temp_high
    let low : Option ℚ :=
      if s.target_temp_low = none then some (min_temp cfg)
      else s.target_temp_low
    let mode : Option String :=
      if strOptTruthy s.hvac_mode = false then some HVAC_MODE_OFF
      else s.hvac_mode
    { s with target_temp_low := low, target_temp_high := high,
             hvac_mode := mode }

/-! ### Helper lemmas -/

@[simp]
theorem activation_step_hvac_mode (s : ControllerState) :
    (activation_step s).hvac_mode = s.hvac_mode := by
  unfold activation_step; split <;> rfl

@[simp]
theorem activation_step_cur_temp (s : ControllerState) :
    (activation_step s).cur_temp = s.cur_temp := by
  unfold activation_step; split <;> rfl

@[simp]
theorem activation_step_target_temp_low (s : ControllerState) :
    (activation_step s).target_temp_low = s.target_temp_low := by
  unfold activation_step; split <;> rfl

@[simp]
theorem activation_step_target_temp_high (s : ControllerState) :
    (activation_step s).target_temp_high = s.target_temp_high := by
  unfold activation_step; split <;> rfl

@[simp]
theorem activation_step_is_away (s : ControllerState) :
    (activation_step s).is_away = s.is_away := by
  unfold activation_step; split <;> rfl

theorem activation_step_active (s : ControllerState) :
    (activation_step s).active =
      (s.active || (s.cur_temp.isSome && s.target_temp_high.isSome &&
        s.target_temp_low.isSome)) := by
  unfold activation_step
  split
  · next hc =>
    obtain ⟨h1, h2, h3, h4⟩ := hc
    simp [h1, Option.isSome_iff_ne_none.mpr h2, Option.isSome_iff_ne_none.mpr h3,
      Option.isSome_iff_ne_none.mpr h4]
  · next hc =>
    by_cases ha : s.active = true
    · simp [ha]
    · simp only [Bool.not_eq_true] at ha
      simp only [ha, Bool.false_or]
      rcases h2 : s.cur_temp with _ | v1
      · simp
      · rcases h3 : s.target_temp_high with _ | v2
        · simp
        · rcases h4 : s.target_temp_low with _ | v3
          · simp
          · exact absurd ⟨ha, by simp [h2], by simp [h3], by simp [h4]⟩ hc

theorem activation_step_preserves_active (s : ControllerState)
    (h : s.active = true) : (activation_step s).active = true := by
  rw [activation_step_active, h]; rfl

/-- One evaluation of `control_heating` is one of: an early return at a
gate with no commands, a `TypeError` from the threshold computation with
no commands, or a completed run whose commands come from the turn-off or
turn-on pass applied to the computed thresholds. -/
theorem control_heating_cases (cfg : Config) (env : Env) (s : ControllerState)
    (force : Bool) :
    (∃ rp, control_heating cfg env s force =
        ⟨activation_step s, [], .returned rp⟩ ∧ rp ≠ ReturnPoint.completed) ∨
    control_heating cfg env s force = ⟨activation_step s, [], .typeError⟩ ∨
    (∃ th : Thresholds,
      compute_thresholds cfg.cold_tolerance cfg.hot_tolerance
        s.target_temp_low s.target_temp_high s.cur_temp = .ok th ∧
      control_heating cfg env s force =
        ⟨activation_step s,
         if is_device_active env = true then turn_off_commands s.hvac_mode th
         else turn_on_commands s.hvac_mode th,
         .returned .completed⟩) := by
  unfold control_heating
  split
  · exact Or.inl ⟨.activationGate, rfl, by simp⟩
  · split
    · exact Or.inl ⟨.modeGate, rfl, by simp⟩
    · split
      · exact Or.inl ⟨.debounceGate, rfl, by simp⟩
      · unfold run_passes
        rcases hth : compute_thresholds cfg.cold_tolerance cfg.hot_tolerance
            (activation_step s).target_temp_low (activation_step s).target_temp_high
            (activation_step s).cur_temp with e | th
        · simp only [hth]
          exact Or.inr (Or.inl (by simp))
        · refine Or.inr (Or.inr ⟨th, ?_, ?_⟩)
          · simpa using hth
          · simp only [hth, activation_step_hvac_mode]

/-- When all three gates pass, `control_heating` reaches the passes. -/
theorem control_heating_gates_passed (cfg : Config) (env : Env)
    (s : ControllerState) (force : Bool)
    (hact : (activation_step s).active = true)
    (hmode : s.hvac_mode ≠ some HVAC_MODE_OFF)
    (hgate : debounce_passed cfg env force = true) :
    control_heating cfg env s force = run_passes cfg env (activation_step s) := by
  unfold control_heating
  rw [if_neg (by simp [hact]), if_neg (by simpa using hmode),
    if_neg (by simp [hgate])]

theorem activation_step_of_active (s : ControllerState) (h : s.active = true) :
    activation_step s = s := by
  unfold activation_step
  rw [if_neg]
  rintro ⟨h1, -⟩
  rw [h] at h1
  exact absurd h1 (by simp)

/-- The state coming out of an evaluation is always the state after the
activation step: no later statement of `_async_control_heating` mutates
the controller. -/
theorem control_heating_state (cfg : Config) (env : Env) (s : ControllerState)
    (force : Bool) :
    (control_heating cfg env s force).state = activation_step s := by
  unfold control_heating run_passes
  split
  · rfl
  · split
    · rfl
    · split
      · rfl
      · split <;> rfl

theorem after_eval_state (pre : List Command) (r : EvalResult) :
    (after_eval pre r).state = r.state := by
  unfold after_eval; split <;> rfl

theorem after_eval_evaluated (pre : List Command) (r : EvalResult) :
    (after_eval pre r).evaluated = true := by
  unfold after_eval; split <;> rfl

theorem compute_thresholds_none (ct ht : ℚ) (low high t : Option ℚ)
    (h : low = none ∨ high = none) :
    compute_thresholds ct ht low high t =
      .error "TypeError: unsupported operand type for -: NoneType" := by
  rcases h with h | h
  · subst h
    rcases t with _ | tv <;> rfl
  · subst h
    rcases low with _ | l <;> rcases t with _ | tv <;> rfl

theorem mem_turn_on_commands_cooler (mode : Option String) (th : Thresholds) :
    Command.cooler_turn_on ∈ turn_on_commands mode th ↔
      th.too_hot = true ∧
        (mode = some HVAC_MODE_COOL ∨ mode = some HVAC_MODE_HEAT_COOL) := by
  unfold turn_on_commands
  split
  · next hc => simp [hc]
  · next hc =>
    split
    · simp [hc]
    · simp [hc]

theorem mem_turn_on_commands_heater (mode : Option String) (th : Thresholds) :
    Command.heater_turn_on ∈ turn_on_commands mode th ↔
      ¬(th.too_hot = true ∧
          (mode = some HVAC_MODE_COOL ∨ mode = some HVAC_MODE_HEAT_COOL)) ∧
        (th.too_cold = true ∧
          (mode = some HVAC_MODE_HEAT ∨ mode = some HVAC_MODE_HEAT_COOL)) := by
  unfold turn_on_commands
  split
  · next hc => simp [hc]
  · next hc =>
    split
    · next hc2 => simp [hc, hc2]
    · next hc2 => simp [hc, hc2]

theorem turn_on_commands_length (mode : Option String) (th : Thresholds) :
    (turn_on_commands mode th).length ≤ 1 := by
  unfold turn_on_commands
  split
  · simp
  · split <;> simp

theorem mem_turn_off_commands_cooler (mode : Option String) (th : Thresholds) :
    Command.cooler_turn_off ∈ turn_off_commands mode th ↔
      th.cool_enough = true ∧
        (mode = some HVAC_MODE_COOL ∨ mode = some HVAC_MODE_HEAT_COOL) := by
  unfold turn_off_commands
  split
  · next hc =>
    split
    · simp [hc]
    · simp [hc]
  · next hc =>
    split
    · simp [hc]
    · simp [hc]

theorem mem_turn_off_commands_heater (mode : Option String) (th : Thresholds) :
    Command.heater_turn_off ∈ turn_off_commands mode th ↔
      th.warm_enough = true ∧
        (mode = some HVAC_MODE_HEAT ∨ mode = some HVAC_MODE_HEAT_COOL) := by
  unfold turn_off_commands
  split
  · next hc =>
    split
    · next hc2 => simp [hc2]
    · next hc2 => simp [hc2]
  · next hc =>
    split
    · next hc2 => simp [hc2]
    · next hc2 => simp [hc2]

/-! ### Concrete fixtures for witnesses and counterexamples -/

/-- A concrete configuration: no reverse cycle, no minimum cycle
duration, both tolerances 1, configured min/max temperatures 7 / 35
(base-class defaults likewise). -/
def cfgW : Config := ⟨false, none, 1, 1, some 7, some 35, 7, 35⟩

/-- The same configuration with a one-minute minimum cycle duration. -/
def cfgDurW : Config := ⟨false, some 60, 1, 1, some 7, some 35, 7, 35⟩

/-- Both switches observed off; no state held long enough. -/
def envIdleW : Env := ⟨false, false, fun _ => false, fun _ => false⟩

/-- The heater switch observed on; no state held long enough. -/
def envHotW : Env := ⟨true, false, fun _ => false, fun _ => false⟩

/-- An active controller in HEAT mode at 20 degrees, range [18, 22]. -/
def sHeatW : ControllerState :=
  ⟨some HVAC_MODE_HEAT, true, some 20, some 18, some 22, false⟩

/-- An active controller in HEAT_COOL mode at 20 degrees, range [18, 22]. -/
def sRangeW : ControllerState :=
  ⟨some HVAC_MODE_HEAT_COOL, true, some 20, some 18, some 22, false⟩

/-- An active controller whose mode is OFF. -/
def sOffW : ControllerState :=
  ⟨some HVAC_MODE_OFF, true, some 20, some 18, some 22, false⟩

/-- A freshly constructed controller in HEAT mode: inactive, nothing
known yet. -/
def sColdW : ControllerState := ⟨some HVAC_MODE_HEAT, false, none, none, none, false⟩

/-- A persisted state with every field absent. -/
def oMissingW : PersistedState := ⟨none, none, none, none⟩

/-- Python `float()` conversion as applied to the non-numeric readings
used in the concrete instances below: it raises `ValueError`. -/
def parseFailW : String → Option ℚ := fun _ => none

theorem update_temp_hvac_mode (parse : String → Option ℚ)
    (s : ControllerState) (r : String) :
    (update_temp parse s r).hvac_mode = s.hvac_mode := by
  unfold update_temp; split <;> rfl

theorem update_temp_active (parse : String → Option ℚ)
    (s : ControllerState) (r : String) :
    (update_temp parse s r).active = s.active := by
  unfold update_temp; split <;> rfl

theorem async_added_to_hass_active (cfg : Config) (s : ControllerState)
    (old_state : Option PersistedState) :
    (async_added_to_hass cfg s old_state).active = s.active := by
  unfold async_added_to_hass
  rcases old_state with _ | o <;> rfl

/-! ### Claim theorems -/

/-- C1: at every evaluation that reaches the threshold computation
(controller active after the activation step, mode not OFF, debounce gate
passed — in particular when `force` is true), with current reading `t`
and targets `l` / `h`: the computed `too_cold` holds iff
`l - t ≥ cold_tolerance`, `too_hot` iff `t - h ≥ hot_tolerance`,
`cool_enough` iff `h - t ≥ hot_tolerance`, and `warm_enough` iff
`t - l ≥ cold_tolerance`, and the completed run dispatches on exactly
these thresholds. -/
theorem C1_threshold_predicates (cfg : Config) (env : Env)
    (s : ControllerState) (force : Bool) (l h t : ℚ)
    (hl : s.target_temp_low = some l) (hh : s.target_temp_high = some h)
    (hT : s.cur_temp = some t)
    (hact : (activation_step s).active = true)
    (hmode : s.hvac_mode ≠ some HVAC_MODE_OFF)
    (hgate : debounce_passed cfg env force = true) :
    ∃ th : Thresholds,
      compute_thresholds cfg.cold_tolerance cfg.hot_tolerance
        s.target_temp_low s.target_temp_high s.cur_temp = .ok th ∧
      control_heating cfg env s force =
        ⟨activation_step s,
         if is_device_active env = true then turn_off_commands s.hvac_mode th
         else turn_on_commands s.hvac_mode th,
         .returned .completed⟩ ∧
      (th.too_cold = true ↔ l - t ≥ cfg.cold_tolerance) ∧
      (th.too_hot = true ↔ t - h ≥ cfg.hot_tolerance) ∧
      (th.cool_enough = true ↔ h - t ≥ cfg.hot_tolerance) ∧
      (th.warm_enough = true ↔ t - l ≥ cfg.cold_tolerance) := by
  refine ⟨⟨decide (l - t ≥ cfg.cold_tolerance), decide (t - h ≥ cfg.hot_tolerance),
    decide (h - t ≥ cfg.hot_tolerance), decide (t - l ≥ cfg.cold_tolerance)⟩,
    ?_, ?_, by simp, by simp, by simp, by simp⟩
  · rw [hl, hh, hT]; rfl
  · rw [control_heating_gates_passed cfg env s force hact hmode hgate]
    unfold run_passes
    rw [activation_step_target_temp_low, activation_step_target_temp_high,
      activation_step_cur_temp, hl, hh, hT, activation_step_hvac_mode]
    rfl

/-- C2: in every evaluation with the device observed inactive (neither
switch reads on), at most one turn-on command is issued, never both in
the same call; and when the run completes the passes, the cooler is
commanded on iff `too_hot` holds with mode COOL or HEAT_COOL, otherwise
(else-if) the heater is commanded on iff `too_cold` holds with mode HEAT
or HEAT_COOL. -/
theorem C2_turn_on_pass (cfg : Config) (env : Env) (s : ControllerState)
    (force : Bool) (hinact : is_device_active env = false) :
    (control_heating cfg env s force).commands.length ≤ 1 ∧
    ¬(Command.cooler_turn_on ∈ (control_heating cfg env s force).commands ∧
      Command.heater_turn_on ∈ (control_heating cfg env s force).commands) ∧
    ((control_heating cfg env s force).outcome = .returned .completed →
      ∃ th : Thresholds,
        compute_thresholds cfg.cold_tolerance cfg.hot_tolerance
          s.target_temp_low s.target_temp_high s.cur_temp = .ok th ∧
        (Command.cooler_turn_on ∈ (control_heating cfg env s force).commands ↔
          th.too_hot = true ∧ (s.hvac_mode = some HVAC_MODE_COOL ∨
            s.hvac_mode = some HVAC_MODE_HEAT_COOL)) ∧
        (Command.heater_turn_on ∈ (control_heating cfg env s force).commands ↔
          ¬(th.too_hot = true ∧ (s.hvac_mode = some HVAC_MODE_COOL ∨
              s.hvac_mode = some HVAC_MODE_HEAT_COOL)) ∧
            (th.too_cold = true ∧ (s.hvac_mode = some HVAC_MODE_HEAT ∨
              s.hvac_mode = some HVAC_MODE_HEAT_COOL)))) := by
  rcases control_heating_cases cfg env s force with
    ⟨rp, heq, hne⟩ | heq | ⟨th, hth, heq⟩
  · refine ⟨by simp [heq], by simp [heq], ?_⟩
    intro hc
    rw [heq] at hc
    exact absurd (by injection hc) hne
  · refine ⟨by simp [heq], by simp [heq], ?_⟩
    intro hc
    rw [heq] at hc
    exact absurd hc (by simp)
  · rw [hinact] at heq
    simp only [Bool.false_eq_true, if_false] at heq
    refine ⟨?_, ?_, fun _ => ⟨th, hth, ?_, ?_⟩⟩
    · rw [heq]
      exact turn_on_commands_length s.hvac_mode th
    · rw [heq]
      rintro ⟨h1, h2⟩
      rw [mem_turn_on_commands_cooler] at h1
      rw [mem_turn_on_commands_heater] at h2
      exact h2.1 h1
    · rw [heq]
      exact mem_turn_on_commands_cooler s.hvac_mode th
    · rw [heq]
      exact mem_turn_on_commands_heater s.hvac_mode th

/-- C3: with `min_cycle_duration` configured (truthy), the controller
active and the mode not OFF, a non-forced evaluation in which neither
the heater nor the cooler has held the reference state — `"on"` when the
device is observed active, `"off"` otherwise — long enough returns at
the debounce gate without issuing any command; a forced evaluation skips
the gate entirely and proceeds to the threshold computation and passes. -/
theorem C3_debounce_gate (cfg : Config) (env : Env) (s : ControllerState)
    (hdur : timedeltaTruthy cfg.min_cycle_duration = true)
    (hact : (activation_step s).active = true)
    (hmode : s.hvac_mode ≠ some HVAC_MODE_OFF) :
    reference_state env =
      (if is_device_active env = true then STATE_ON else HVAC_MODE_OFF) ∧
    ((env.heater_held (reference_state env) = false ∧
      env.cooler_held (reference_state env) = false) →
        control_heating cfg env s false =
          ⟨activation_step s, [], .returned .debounceGate⟩) ∧
    (debounce_passed cfg env true = true ∧
      control_heating cfg env s true = run_passes cfg env (activation_step s)) := by
  refine ⟨rfl, ?_, rfl, ?_⟩
  · rintro ⟨hheat, hcool⟩
    have hdp : debounce_passed cfg env false = false := by
      unfold debounce_passed
      rw [if_neg (by simp), if_pos hdur, hheat, hcool]
      rfl
    unfold control_heating
    rw [if_neg (by simp [hact]), if_neg (by simpa using hmode), if_pos hdp]
  · exact control_heating_gates_passed cfg env s true hact hmode rfl

/-- C7: in HEAT_COOL mode, when an evaluation reaches the turn-off pass
with the device observed active and both `cool_enough` and `warm_enough`
holding, it issues the cooler-off command and the heater-off command in
the same call. -/
theorem C7_heat_cool_both_off (cfg : Config) (env : Env)
    (s : ControllerState) (force : Bool) (l h t : ℚ)
    (hl : s.target_temp_low = some l) (hh : s.target_temp_high = some h)
    (hT : s.cur_temp = some t)
    (hact : (activation_step s).active = true)
    (hmode : s.hvac_mode = some HVAC_MODE_HEAT_COOL)
    (hgate : debounce_passed cfg env force = true)
    (hdev : is_device_active env = true)
    (hce : h - t ≥ cfg.hot_tolerance) (hwe : t - l ≥ cfg.cold_tolerance) :
    control_heating cfg env s force =
      ⟨activation_step s, [Command.cooler_turn_off, Command.heater_turn_off],
        .returned .completed⟩ := by
  rw [control_heating_gates_passed cfg env s force hact
    (by rw [hmode]; simp [HVAC_MODE_HEAT_COOL, HVAC_MODE_OFF]) hgate]
  unfold run_passes
  rw [activation_step_target_temp_low, activation_step_target_temp_high,
    activation_step_cur_temp, hl, hh, hT, activation_step_hvac_mode, hmode]
  unfold compute_thresholds pySub
  simp only [hdev, if_true]
  unfold turn_off_commands
  rw [if_pos ⟨decide_eq_true hce, Or.inr rfl⟩,
    if_pos ⟨decide_eq_true hwe, Or.inr rfl⟩]
  rfl

/-- C9: every evaluation invoked while the controller is not active and
at least one of the current temperature or the two setpoints is unknown
returns at the activation gate with no actuator command, for both forced
and non-forced evaluations. -/
theorem C9_inactive_unknown_noop (cfg : Config) (env : Env)
    (s : ControllerState) (force : Bool) (hina : s.active = false)
    (hun : s.cur_temp = none ∨ s.target_temp_low = none ∨
      s.target_temp_high = none) :
    control_heating cfg env s force = ⟨s, [], .returned .activationGate⟩ := by
  have hstep : activation_step s = s := by
    unfold activation_step
    rw [if_neg]
    rintro ⟨-, h2, h3, h4⟩
    rcases hun with h | h | h
    · exact h2 h
    · exact h4 h
    · exact h3 h
  unfold control_heating
  rw [hstep, if_pos hina]

/-- C5 counterexample: the claim says a missing persisted target_high
falls back to `max_temp` for every configured mode; but restoring in
HEAT mode with the persisted target_high attribute absent sets
target_high to `min_temp` (7), not `max_temp` (35). -/
theorem C5_restore_counterexample :
    (async_added_to_hass cfgW sColdW (some oMissingW)).target_temp_high =
      some (min_temp cfgW) ∧
    (async_added_to_hass cfgW sColdW (some oMissingW)).target_temp_high ≠
      some (max_temp cfgW) := by
  have h : (async_added_to_hass cfgW sColdW (some oMissingW)).target_temp_high
      = some (min_temp cfgW) := by
    simp only [async_added_to_hass, sColdW, oMissingW]
    rw [if_neg (by decide)]
  refine ⟨h, ?_⟩
  rw [h]
  simp only [min_temp, max_temp, cfgW, Option.some.injEq]
  norm_num

/-- C5 (amended): when restoring from persisted state, a missing
persisted target_low attribute falls back to `max_temp` when the
configured mode is COOL and to `min_temp` otherwise (with a warning);
a missing persisted target_high attribute likewise falls back to
`max_temp` when the mode is COOL and to `min_temp` otherwise (with a
warning); a present attribute is restored as saved. -/
theorem C5_restore_defaults (cfg : Config) (s : ControllerState)
    (o : PersistedState) :
    (o.target_low = none →
      (async_added_to_hass cfg s (some o)).target_temp_low =
        some (if s.hvac_mode = some HVAC_MODE_COOL then max_temp cfg
              else min_temp cfg)) ∧
    (o.target_high = none →
      (async_added_to_hass cfg s (some o)).target_temp_high =
        some (if s.hvac_mode = some HVAC_MODE_COOL then max_temp cfg
              else min_temp cfg)) ∧
    (∀ v : ℚ, o.target_low = some v →
      (async_added_to_hass cfg s (some o)).target_temp_low = some v) ∧
    (∀ v : ℚ, o.target_high = some v →
      (async_added_to_hass cfg s (some o)).target_temp_high = some v) := by
  refine ⟨fun hl => ?_, fun hh => ?_, fun v hv => ?_, fun v hv => ?_⟩
  · simp [async_added_to_hass, hl]
  · simp [async_added_to_hass, hh]
  · simp [async_added_to_hass, hv]
  · simp [async_added_to_hass, hv]

/-- C6: the code violates the claim.  The guard
`if new_state == "unavailable": return` compares the `State` object
itself against a string, which is never equal, so a sensor event whose
reading is the explicit string "unavailable" is NOT ignored: the
temperature stays unchanged only because `float` raises, but a
non-forced evaluation and an observer notification still run. -/
theorem C6_unavailable_not_ignored :
    pyEq (PyVal.pyState "unavailable") (PyVal.pyStr "unavailable") = false ∧
    (async_sensor_changed parseFailW cfgW envIdleW sHeatW
      (PyVal.pyState "unavailable")).evaluated = true ∧
    (async_sensor_changed parseFailW cfgW envIdleW sHeatW
      (PyVal.pyState "unavailable")).notified = true ∧
    (async_sensor_changed parseFailW cfgW envIdleW sHeatW
      (PyVal.pyState "unavailable")).state = sHeatW := by
  have hupd : update_temp parseFailW sHeatW "unavailable" = sHeatW := rfl
  have hrun : control_heating cfgW envIdleW sHeatW false =
      ⟨sHeatW, [], .returned .completed⟩ := by
    rw [control_heating_gates_passed cfgW envIdleW sHeatW false
      (activation_step_preserves_active sHeatW rfl) (by decide) rfl]
    rw [activation_step_of_active sHeatW rfl]
    unfold run_passes
    simp only [sHeatW, cfgW, compute_thresholds, pySub, envIdleW,
      is_device_active, turn_on_commands, HVAC_MODE_HEAT, HVAC_MODE_COOL,
      HVAC_MODE_HEAT_COOL]
    norm_num
  refine ⟨rfl, ?_, ?_, ?_⟩ <;>
    simp [async_sensor_changed, pyEq, hupd, hrun, after_eval]

/-- C4: setting the mode to OFF commands both the heater and the cooler
off exactly when either actuator is observed on, without consulting the
cycle guard (no evaluation runs); and for any state whose mode is OFF,
every evaluation — forced or not — issues no command, leaves the mode
OFF, and, whenever it passes the activation gate, returns at the mode
gate; the setpoint and sensor handlers never change the mode. -/
theorem C4_off_mode (cfg cfg2 : Config) (env env2 : Env)
    (s s2 : ControllerState) (force : Bool) (kwl kwh : Option ℚ)
    (parse : String → Option ℚ) (ev : PyVal)
    (h2 : s2.hvac_mode = some HVAC_MODE_OFF) :
    (async_set_hvac_mode cfg env s HVAC_MODE_OFF).state.hvac_mode =
        some HVAC_MODE_OFF ∧
    (async_set_hvac_mode cfg env s HVAC_MODE_OFF).commands =
      (if is_device_active env = true then
        [Command.heater_turn_off, Command.cooler_turn_off]
      else []) ∧
    (async_set_hvac_mode cfg env s HVAC_MODE_OFF).evaluated = false ∧
    (control_heating cfg2 env2 s2 force).commands = [] ∧
    (control_heating cfg2 env2 s2 force).state.hvac_mode =
      some HVAC_MODE_OFF ∧
    ((activation_step s2).active = true →
      (control_heating cfg2 env2 s2 force).outcome =
        .returned .modeGate) ∧
    (async_set_temperature cfg2 env2 s2 kwl kwh).state.hvac_mode =
      some HVAC_MODE_OFF ∧
    (async_sensor_changed parse cfg2 env2 s2 ev).state.hvac_mode =
      some HVAC_MODE_OFF := by
  have hoff : ∀ (cfg3 : Config) (env3 : Env) (s3 : ControllerState)
      (force3 : Bool), s3.hvac_mode = some HVAC_MODE_OFF →
      control_heating cfg3 env3 s3 force3 =
        ⟨activation_step s3, [],
         .returned (if (activation_step s3).active = true then
           ReturnPoint.modeGate else ReturnPoint.activationGate)⟩ := by
    intro cfg3 env3 s3 force3 h3
    by_cases hA : (activation_step s3).active = true
    · unfold control_heating
      rw [if_neg (by simp [hA]), if_pos (by simpa using h3), if_pos hA]
    · unfold control_heating
      rw [if_pos (by simpa using hA), if_neg hA]
  refine ⟨?_, ?_, ?_, ?_, ?_, ?_, ?_, ?_⟩
  · simp [async_set_hvac_mode, HVAC_MODE_OFF, HVAC_MODE_HEAT, HVAC_MODE_COOL,
      HVAC_MODE_HEAT_COOL]
  · simp [async_set_hvac_mode, HVAC_MODE_OFF, HVAC_MODE_HEAT, HVAC_MODE_COOL,
      HVAC_MODE_HEAT_COOL]
  · simp [async_set_hvac_mode, HVAC_MODE_OFF, HVAC_MODE_HEAT, HVAC_MODE_COOL,
      HVAC_MODE_HEAT_COOL]
  · rw [hoff cfg2 env2 s2 force h2]
  · rw [hoff cfg2 env2 s2 force h2]
    simpa using h2
  · intro hA
    rw [hoff cfg2 env2 s2 force h2]
    simp [hA]
  · unfold async_set_temperature
    rw [after_eval_state, control_heating_state, activation_step_hvac_mode]
    exact h2
  · unfold async_sensor_changed
    split
    · exact h2
    · split
      · exact h2
      · split
        · rw [after_eval_state, control_heating_state,
            activation_step_hvac_mode, update_temp_hvac_mode]
          exact h2
        · exact h2

/-- C8: activation is monotonic — if `active` is true, it stays true
across every operation of the controller (evaluation, mode change,
setpoint change, sensor event, restore) — and the activation step sets
it exactly when it was already true or all three of current temperature
and the two setpoints are known. -/
theorem C8_active_monotone (cfg : Config) (env : Env)
    (s s3 : ControllerState) (force : Bool) (marg : String)
    (kwl kwh : Option ℚ) (parse : String → Option ℚ) (ev : PyVal)
    (old_state : Option PersistedState) (h : s.active = true) :
    (control_heating cfg env s force).state.active = true ∧
    (async_set_hvac_mode cfg env s marg).state.active = true ∧
    (async_set_temperature cfg env s kwl kwh).state.active = true ∧
    (async_sensor_changed parse cfg env s ev).state.active = true ∧
    (async_added_to_hass cfg s old_state).active = true ∧
    (activation_step s3).active =
      (s3.active || (s3.cur_temp.isSome && s3.target_temp_high.isSome &&
        s3.target_temp_low.isSome)) := by
  refine ⟨?_, ?_, ?_, ?_, ?_, activation_step_active s3⟩
  · rw [control_heating_state]
    exact activation_step_preserves_active s h
  · unfold async_set_hvac_mode
    split
    · rw [after_eval_state, control_heating_state]
      exact activation_step_preserves_active _ h
    · split
      · rw [after_eval_state, control_heating_state]
        exact activation_step_preserves_active _ h
      · split
        · rw [after_eval_state, control_heating_state]
          exact activation_step_preserves_active _ h
        · split
          · exact h
          · exact h
  · unfold async_set_temperature
    rw [after_eval_state, control_heating_state]
    exact activation_step_preserves_active _ h
  · unfold async_sensor_changed
    split
    · exact h
    · split
      · exact h
      · split
        · rw [after_eval_state, control_heating_state]
          refine activation_step_preserves_active _ ?_
          rw [update_temp_active]
          exact h
        · exact h
  · rw [async_added_to_hass_active]
    exact h

/-- C10: with the controller already active and the mode not OFF, a
setpoint-change call that omits one of the two target attributes
overwrites the corresponding setpoint with `None` and the forced
evaluation it triggers raises a `TypeError` in the threshold
computation: the handler propagates the exception, issues no command,
and never reaches the notification. -/
theorem C10_none_setpoint_crash (cfg : Config) (env : Env)
    (s : ControllerState) (kwl kwh : Option ℚ) (hact : s.active = true)
    (hmode : s.hvac_mode ≠ some HVAC_MODE_OFF)
    (habs : kwl = none ∨ kwh = none) :
    (async_set_temperature cfg env s kwl kwh).raised = true ∧
    (async_set_temperature cfg env s kwl kwh).evaluated = true ∧
    (async_set_temperature cfg env s kwl kwh).notified = false ∧
    (async_set_temperature cfg env s kwl kwh).commands = [] ∧
    (async_set_temperature cfg env s kwl kwh).state.target_temp_low = kwl ∧
    (async_set_temperature cfg env s kwl kwh).state.target_temp_high = kwh := by
  have h1 : ControllerState.active
      { s with target_temp_low := kwl, target_temp_high := kwh } = true := hact
  have hstep := activation_step_of_active _ h1
  have hrun : control_heating cfg env
      { s with target_temp_low := kwl, target_temp_high := kwh } true =
      ⟨{ s with target_temp_low := kwl, target_temp_high := kwh }, [],
        .typeError⟩ := by
    rw [control_heating_gates_passed cfg env _ true
      (by rw [hstep]; exact h1) (by simpa using hmode) rfl]
    rw [hstep]
    unfold run_passes
    rw [compute_thresholds_none _ _ _ _ _ (by simpa using habs)]
  simp only [async_set_temperature]
  rw [hrun]
  exact ⟨rfl, rfl, rfl, rfl, rfl, rfl⟩

/-! ### Witnesses: each theorem with hypotheses, applied at a concrete
instance with the hypotheses discharged there. -/

/-- Witness for C1: active HEAT controller at 20 degrees, range
[18, 22], forced evaluation. -/
theorem C1_threshold_predicates_witness :
    sHeatW.target_temp_low = some 18 ∧ sHeatW.target_temp_high = some 22 ∧
    sHeatW.cur_temp = some 20 ∧ (activation_step sHeatW).active = true ∧
    sHeatW.hvac_mode ≠ some HVAC_MODE_OFF ∧
    debounce_passed cfgW envIdleW true = true ∧
    (∃ th : Thresholds,
      compute_thresholds cfgW.cold_tolerance cfgW.hot_tolerance
        sHeatW.target_temp_low sHeatW.target_temp_high sHeatW.cur_temp =
          .ok th ∧
      control_heating cfgW envIdleW sHeatW true =
        ⟨activation_step sHeatW,
         if is_device_active envIdleW = true then
           turn_off_commands sHeatW.hvac_mode th
         else turn_on_commands sHeatW.hvac_mode th,
         .returned .completed⟩ ∧
      (th.too_cold = true ↔ (18 : ℚ) - 20 ≥ cfgW.cold_tolerance) ∧
      (th.too_hot = true ↔ (20 : ℚ) - 22 ≥ cfgW.hot_tolerance) ∧
      (th.cool_enough = true ↔ (22 : ℚ) - 20 ≥ cfgW.hot_tolerance) ∧
      (th.warm_enough = true ↔ (20 : ℚ) - 18 ≥ cfgW.cold_tolerance)) :=
  ⟨rfl, rfl, rfl, activation_step_preserves_active sHeatW rfl, by decide, rfl,
    C1_threshold_predicates cfgW envIdleW sHeatW true 18 22 20 rfl rfl rfl
      (activation_step_preserves_active sHeatW rfl) (by decide) rfl⟩

/-- Witness for C2: device observed inactive, forced evaluation of the
active HEAT controller. -/
theorem C2_turn_on_pass_witness :
    is_device_active envIdleW = false ∧
    ((control_heating cfgW envIdleW sHeatW true).commands.length ≤ 1 ∧
     ¬(Command.cooler_turn_on ∈
         (control_heating cfgW envIdleW sHeatW true).commands ∧
       Command.heater_turn_on ∈
         (control_heating cfgW envIdleW sHeatW true).commands) ∧
     ((control_heating cfgW envIdleW sHeatW true).outcome =
         .returned .completed →
       ∃ th : Thresholds,
         compute_thresholds cfgW.cold_tolerance cfgW.hot_tolerance
           sHeatW.target_temp_low sHeatW.target_temp_high sHeatW.cur_temp =
             .ok th ∧
         (Command.cooler_turn_on ∈
             (control_heating cfgW envIdleW sHeatW true).commands ↔
           th.too_hot = true ∧ (sHeatW.hvac_mode = some HVAC_MODE_COOL ∨
             sHeatW.hvac_mode = some HVAC_MODE_HEAT_COOL)) ∧
         (Command.heater_turn_on ∈
             (control_heating cfgW envIdleW sHeatW true).commands ↔
           ¬(th.too_hot = true ∧ (sHeatW.hvac_mode = some HVAC_MODE_COOL ∨
               sHeatW.hvac_mode = some HVAC_MODE_HEAT_COOL)) ∧
             (th.too_cold = true ∧
               (sHeatW.hvac_mode = some HVAC_MODE_HEAT ∨
                sHeatW.hvac_mode = some HVAC_MODE_HEAT_COOL))))) :=
  ⟨rfl, C2_turn_on_pass cfgW envIdleW sHeatW true rfl⟩

/-- Witness for C3: configured one-minute minimum cycle duration, active
HEAT controller, neither switch has held its reference state. -/
theorem C3_debounce_gate_witness :
    timedeltaTruthy cfgDurW.min_cycle_duration = true ∧
    (activation_step sHeatW).active = true ∧
    sHeatW.hvac_mode ≠ some HVAC_MODE_OFF ∧
    (reference_state envIdleW =
      (if is_device_active envIdleW = true then STATE_ON else HVAC_MODE_OFF) ∧
    ((envIdleW.heater_held (reference_state envIdleW) = false ∧
      envIdleW.cooler_held (reference_state envIdleW) = false) →
        control_heating cfgDurW envIdleW sHeatW false =
          ⟨activation_step sHeatW, [], .returned .debounceGate⟩) ∧
    (debounce_passed cfgDurW envIdleW true = true ∧
      control_heating cfgDurW envIdleW sHeatW true =
        run_passes cfgDurW envIdleW (activation_step sHeatW))) :=
  ⟨rfl, activation_step_preserves_active sHeatW rfl, by decide,
    C3_debounce_gate cfgDurW envIdleW sHeatW rfl
      (activation_step_preserves_active sHeatW rfl) (by decide)⟩

/-- Witness for C4: setting OFF with the heater observed on, and a
state already in OFF mode evaluated with force. -/
theorem C4_off_mode_witness :
    sOffW.hvac_mode = some HVAC_MODE_OFF ∧
    ((async_set_hvac_mode cfgW envHotW sHeatW HVAC_MODE_OFF).state.hvac_mode =
        some HVAC_MODE_OFF ∧
    (async_set_hvac_mode cfgW envHotW sHeatW HVAC_MODE_OFF).commands =
      (if is_device_active envHotW = true then
        [Command.heater_turn_off, Command.cooler_turn_off]
      else []) ∧
    (async_set_hvac_mode cfgW envHotW sHeatW HVAC_MODE_OFF).evaluated = false ∧
    (control_heating cfgW envIdleW sOffW true).commands = [] ∧
    (control_heating cfgW envIdleW sOffW true).state.hvac_mode =
      some HVAC_MODE_OFF ∧
    ((activation_step sOffW).active = true →
      (control_heating cfgW envIdleW sOffW true).outcome =
        .returned .modeGate) ∧
    (async_set_temperature cfgW envIdleW sOffW none none).state.hvac_mode =
      some HVAC_MODE_OFF ∧
    (async_sensor_changed parseFailW cfgW envIdleW sOffW
      PyVal.pyNone).state.hvac_mode = some HVAC_MODE_OFF) :=
  ⟨rfl, C4_off_mode cfgW cfgW envHotW envIdleW sHeatW sOffW true none none
    parseFailW PyVal.pyNone rfl⟩

/-- Witness for C5 (amended): restoring a HEAT-mode controller with the
persisted target attributes absent lands both setpoints on the
non-COOL fallback. -/
theorem C5_restore_defaults_witness :
    oMissingW.target_low = none ∧ oMissingW.target_high = none ∧
    (async_added_to_hass cfgW sColdW (some oMissingW)).target_temp_low =
      some (if sColdW.hvac_mode = some HVAC_MODE_COOL then max_temp cfgW
            else min_temp cfgW) ∧
    (async_added_to_hass cfgW sColdW (some oMissingW)).target_temp_high =
      some (if sColdW.hvac_mode = some HVAC_MODE_COOL then max_temp cfgW
            else min_temp cfgW) :=
  ⟨rfl, rfl, (C5_restore_defaults cfgW sColdW oMissingW).1 rfl,
    (C5_restore_defaults cfgW sColdW oMissingW).2.1 rfl⟩

/-- Witness for C7: active HEAT_COOL controller at 20 degrees, range
[18, 22], tolerances 1, heater observed on: both turn-off commands. -/
theorem C7_heat_cool_both_off_witness :
    sRangeW.target_temp_low = some 18 ∧ sRangeW.target_temp_high = some 22 ∧
    sRangeW.cur_temp = some 20 ∧ (activation_step sRangeW).active = true ∧
    sRangeW.hvac_mode = some HVAC_MODE_HEAT_COOL ∧
    debounce_passed cfgW envHotW true = true ∧
    is_device_active envHotW = true ∧
    (22 : ℚ) - 20 ≥ cfgW.hot_tolerance ∧ (20 : ℚ) - 18 ≥ cfgW.cold_tolerance ∧
    control_heating cfgW envHotW sRangeW true =
      ⟨activation_step sRangeW,
       [Command.cooler_turn_off, Command.heater_turn_off],
       .returned .completed⟩ :=
  ⟨rfl, rfl, rfl, activation_step_preserves_active sRangeW rfl, rfl, rfl, rfl,
    by norm_num [cfgW], by norm_num [cfgW],
    C7_heat_cool_both_off cfgW envHotW sRangeW true 18 22 20 rfl rfl rfl
      (activation_step_preserves_active sRangeW rfl) rfl rfl rfl
      (by norm_num [cfgW]) (by norm_num [cfgW])⟩

/-- Witness for C8: an already-active controller stays active across
every operation. -/
theorem C8_active_monotone_witness :
    sHeatW.active = true ∧
    ((control_heating cfgW envIdleW sHeatW true).state.active = true ∧
    (async_set_hvac_mode cfgW envIdleW sHeatW HVAC_MODE_OFF).state.active =
      true ∧
    (async_set_temperature cfgW envIdleW sHeatW none none).state.active =
      true ∧
    (async_sensor_changed parseFailW cfgW envIdleW sHeatW
      PyVal.pyNone).state.active = true ∧
    (async_added_to_hass cfgW sHeatW none).active = true ∧
    (activation_step sColdW).active =
      (sColdW.active || (sColdW.cur_temp.isSome &&
        sColdW.target_temp_high.isSome && sColdW.target_temp_low.isSome))) :=
  ⟨rfl, C8_active_monotone cfgW envIdleW sHeatW sColdW true HVAC_MODE_OFF
    none none parseFailW PyVal.pyNone none rfl⟩

/-- Witness for C9: a fresh inactive controller with nothing known is a
no-op under a forced evaluation. -/
theorem C9_inactive_unknown_noop_witness :
    sColdW.active = false ∧
    (sColdW.cur_temp = none ∨ sColdW.target_temp_low = none ∨
      sColdW.target_temp_high = none) ∧
    control_heating cfgW envIdleW sColdW true =
      ⟨sColdW, [], .returned .activationGate⟩ :=
  ⟨rfl, Or.inl rfl,
    C9_inactive_unknown_noop cfgW envIdleW sColdW true rfl (Or.inl rfl)⟩

/-- Witness for C10: active HEAT controller, setpoint change omitting
the low target raises out of the forced evaluation. -/
theorem C10_none_setpoint_crash_witness :
    sHeatW.active = true ∧ sHeatW.hvac_mode ≠ some HVAC_MODE_OFF ∧
    ((none : Option ℚ) = none ∨ (some (25 : ℚ) : Option ℚ) = none) ∧
    ((async_set_temperature cfgW envIdleW sHeatW none (some 25)).raised =
      true ∧
    (async_set_temperature cfgW envIdleW sHeatW none (some 25)).evaluated =
      true ∧
    (async_set_temperature cfgW envIdleW sHeatW none (some 25)).notified =
      false ∧
    (async_set_temperature cfgW envIdleW sHeatW none (some 25)).commands =
      [] ∧
    (async_set_temperature cfgW envIdleW sHeatW none
      (some 25)).state.target_temp_low = none ∧
    (async_set_temperature cfgW envIdleW sHeatW none
      (some 25)).state.target_temp_high = some 25) :=
  ⟨rfl, by decide, Or.inl rfl,
    C10_none_setpoint_crash cfgW envIdleW sHeatW none (some 25) rfl
      (by decide) (Or.inl rfl)⟩

end DualMode
